import Mathlib

/-!
Shallow embedding of the MindCare text-analysis backend.

The analysis pipeline (utils/analysis.py), the model wrapper
(models/model_loader.py) and the route handlers (api/routes.py) are
translated into pure Lean functions.  Python floats are modelled as
rationals; Python `round` (round-half-to-even to `n` decimal digits) is
modelled exactly on ℚ.  The external collaborators (the DistilBERT
classifier and the VADER sentiment analyzer) are taken as function
parameters, as the spec treats them as black boxes.
-/

namespace MindCare

/-! ### String primitives modelling the Python built-ins -/

/-- Whitespace test used to model Python `str.strip` / `str.split()`. -/
def isPySpace (c : Char) : Bool := c.isWhitespace

/-- Models Python `str.lower` (character-wise lowercasing). -/
def lowerCh (l : List Char) : List Char := l.map Char.toLower

/-- Strip whitespace from both ends of a character list (Python `str.strip`). -/
def stripCh (l : List Char) : List Char :=
  ((l.dropWhile isPySpace).reverse.dropWhile isPySpace).reverse

/-- Models Python `str.strip` on strings. -/
def pyStrip (s : String) : String := ⟨stripCh s.data⟩

/-- Models Python `str.lower` on strings. -/
def pyLower (s : String) : String := ⟨lowerCh s.data⟩

/-- Non-overlapping substring occurrence counting, scanning left to right,
with explicit fuel (the scan length) so the definition is structural. -/
def countOccAux (p : List Char) : Nat → List Char → Nat
  | 0, _ => 0
  | _, [] => 0
  | fuel + 1, c :: rest =>
    if p.isPrefixOf (c :: rest) then
      1 + countOccAux p fuel (rest.drop (p.length - 1))
    else
      countOccAux p fuel rest

/-- Models Python `str.count` for a non-empty pattern: the number of
non-overlapping occurrences of `p` in `s`, scanning left to right. -/
def countOcc (p s : List Char) : Nat := countOccAux p s.length s

/-- Models Python `haystack.count(needle)` on strings. -/
def pyCount (haystack needle : String) : Nat := countOcc needle.data haystack.data

/-- Models Python `str.startswith`. -/
def pyStartsWith (s pre : String) : Bool := pre.data.isPrefixOf s.data

/-- Maximal runs of characters satisfying `good`, accumulator-style
(used both for the word-token regex extraction and for `str.split()`). -/
def runsAux (good : Char → Bool) : List Char → List Char → List (List Char)
  | [], acc => if acc.isEmpty then [] else [acc.reverse]
  | c :: cs, acc =>
    if good c then runsAux good cs (c :: acc)
    else if acc.isEmpty then runsAux good cs []
    else acc.reverse :: runsAux good cs []

/-- Word characters of the regex class backslash-w (ASCII fragment). -/
def isWordChar (c : Char) : Bool := c.isAlphanum || c == '_'

/-- Models the `re.findall` word-boundary extraction used in
`extract_linguistic_features`: the maximal runs of word characters. -/
def findallWords (s : String) : List String :=
  (runsAux isWordChar s.data []).map (fun l => ⟨l⟩)

/-- Models Python `s.split(sep)` for a single-character separator. -/
def splitChAux (sep : Char) : List Char → List Char → List (List Char)
  | [], acc => [acc.reverse]
  | c :: cs, acc =>
    if c == sep then acc.reverse :: splitChAux sep cs []
    else splitChAux sep cs (c :: acc)

/-- Models Python `text.split` on a dot separator. -/
def splitDot (s : String) : List (List Char) := splitChAux '.' s.data []

/-- Number of whitespace-delimited tokens, models `len(s.split())`. -/
def wsTokenCount (l : List Char) : Nat :=
  (runsAux (fun c => !isPySpace c) l []).length

/-- Round-half-to-even to the nearest integer, as Python `round` does. -/
def roundHalfEven (x : ℚ) : ℤ :=
  if x - ⌊x⌋ < 1 / 2 then ⌊x⌋
  else if 1 / 2 < x - ⌊x⌋ then ⌊x⌋ + 1
  else if ⌊x⌋ % 2 = 0 then ⌊x⌋ else ⌊x⌋ + 1

/-- Models Python `round(x, ndigits)` on exact rationals. -/
def round_py (x : ℚ) (ndigits : Nat) : ℚ :=
  (roundHalfEven (x * 10 ^ ndigits) : ℚ) / 10 ^ ndigits

/-! ### utils/analysis.py -/

/-- Record returned by `extract_linguistic_features` (utils/analysis.py). -/
structure LinguisticFeatures where
  first_person_pronouns : Nat
  negative_words : Nat
  absolute_words : Nat
  lexical_diversity : ℚ
  avg_sentence_length : ℚ
  total_words : Nat
  deriving DecidableEq

/-- The fixed first-person pronoun list of `extract_linguistic_features`. -/
def first_person_pronoun_list : List String := ["i", "me", "my", "mine", "myself"]

/-- The fixed 18-word depression-indicator lexicon of
`extract_linguistic_features`. -/
def negative_word_list : List String :=
  ["sad", "depressed", "hopeless", "worthless", "tired", "exhausted",
   "alone", "lonely", "empty", "numb", "helpless", "useless",
   "horrible", "terrible", "awful", "miserable", "hate", "hurt"]

/-- The fixed absolute-language lexicon of `extract_linguistic_features`. -/
def absolute_word_list : List String :=
  ["always", "never", "nothing", "nobody", "none", "everyone", "everything"]

/-- Per-pronoun contribution in `extract_linguistic_features`: the counts of
the substrings `" p "`, `" p,"` and `" p."` in the lowercased text, plus 1 if
the lowercased text starts with `"p "`. -/
def pronounOcc (text_lower p : String) : Nat :=
  pyCount text_lower (" " ++ p ++ " ") +
  pyCount text_lower (" " ++ p ++ ",") +
  pyCount text_lower (" " ++ p ++ ".") +
  (if pyStartsWith text_lower (p ++ " ") then 1 else 0)

/-- `extract_linguistic_features` from utils/analysis.py. -/
def extract_linguistic_features (text : String) : LinguisticFeatures :=
  let text_lower := pyLower text
  let pronoun_count := (first_person_pronoun_list.map (pronounOcc text_lower)).sum
  let negative_word_count := (negative_word_list.map (fun w => pyCount text_lower w)).sum
  let absolute_word_count :=
    (absolute_word_list.map (fun w => pyCount text_lower (" " ++ w ++ " "))).sum
  let words := findallWords text_lower
  let unique_words := words.dedup
  let lexical_diversity : ℚ :=
    if words.length > 0 then (unique_words.length : ℚ) / (words.length : ℚ) else 0
  let sentences := ((splitDot text).map stripCh).filter (fun s => ¬ s.isEmpty)
  let avg_sentence_length : ℚ :=
    if sentences.length > 0 then
      ((sentences.map wsTokenCount).sum : ℚ) / (sentences.length : ℚ)
    else 0
  { first_person_pronouns := pronoun_count
    negative_words := negative_word_count
    absolute_words := absolute_word_count
    lexical_diversity := round_py lexical_diversity 3
    avg_sentence_length := round_py avg_sentence_length 2
    total_words := words.length }

/-- The `{compound, positive, negative, neutral}` record returned by
`analyze_sentiment` (the VADER collaborator). -/
structure SentimentResult where
  compound : ℚ
  positive : ℚ
  negative : ℚ
  neutral : ℚ
  deriving DecidableEq

/-- The base-score table of `calculate_wellness_score`. -/
def emotion_scores : List (String × ℚ) :=
  [("joy", 8), ("neutral", 5), ("sadness", 3), ("anxiety", 3.5), ("anger", 2.5)]

/-- `calculate_wellness_score` from utils/analysis.py. -/
def calculate_wellness_score (emotion : String) (sentiment : SentimentResult)
    (features : LinguisticFeatures) : ℚ :=
  let base_score := ((emotion_scores.lookup emotion).getD 5)
  let sentiment_adjustment := sentiment.compound * 2
  let negative_penalty := min ((features.negative_words : ℚ) * 0.5) 2
  let wellness_score := base_score + sentiment_adjustment - negative_penalty
  let wellness_score := max 0 (min 10 wellness_score)
  round_py wellness_score 1

/-- `get_interpretation` from utils/analysis.py. -/
def get_interpretation (score : ℚ) (emotion : String) : String :=
  if score ≥ 7.5 then
    "You seem to be in a positive state with " ++ emotion ++ " emotion. Keep it up!"
  else if score ≥ 5.0 then
    "Your emotional state appears balanced, though showing " ++ emotion ++ "."
  else if score ≥ 3.0 then
    "You seem to be experiencing " ++ emotion ++ ". Consider talking to someone."
  else
    "Your indicators suggest significant " ++ emotion ++ ". Please reach out for support."

/-! ### Spec-side definitions, worded from the claims (for refinement
comparisons against the source-side functions above) -/

/-- Base-score table as claim C1 words it: joy=8.0, neutral=5.0, sadness=3.0,
anxiety=3.5, anger=2.5, any other label 5.0. -/
def specBaseScore (emotion : String) : ℚ :=
  if emotion = "joy" then 8.0
  else if emotion = "neutral" then 5.0
  else if emotion = "sadness" then 3.0
  else if emotion = "anxiety" then 3.5
  else if emotion = "anger" then 2.5
  else 5.0

/-- The wellness formula as claim C1 words it:
`round(clamp(base + compound * 2 - min(negative_words * 0.5, 2.0), 0, 10), 1)`. -/
def specWellnessScore (emotion : String) (compound : ℚ) (negativeWords : Nat) : ℚ :=
  round_py (max 0 (min 10
    (specBaseScore emotion + compound * 2 - min ((negativeWords : ℚ) * 0.5) 2.0))) 1

/-- The interpretation sentence of the top band (score at least 7.5). -/
def positive_sentence (emotion : String) : String :=
  "You seem to be in a positive state with " ++ emotion ++ " emotion. Keep it up!"

/-- The interpretation sentence of the balanced band (5.0 to 7.5). -/
def balanced_sentence (emotion : String) : String :=
  "Your emotional state appears balanced, though showing " ++ emotion ++ "."

/-- The interpretation sentence of the consider-talking band (3.0 to 5.0). -/
def concern_sentence (emotion : String) : String :=
  "You seem to be experiencing " ++ emotion ++ ". Consider talking to someone."

/-- The interpretation sentence of the reach-out band (score below 3.0). -/
def support_sentence (emotion : String) : String :=
  "Your indicators suggest significant " ++ emotion ++ ". Please reach out for support."

/-- Occurrence count for one pronoun as claim C4 words it: the number of
occurrences of the substrings `" p "`, `" p,"`, `" p."` in the lowercased
text, plus 1 if the lowercased text starts with `"p "`. -/
def specOcc (text p : String) : Nat :=
  pyCount (pyLower text) (" " ++ p ++ " ") +
  pyCount (pyLower text) (" " ++ p ++ ",") +
  pyCount (pyLower text) (" " ++ p ++ ".") +
  (if pyStartsWith (pyLower text) (p ++ " ") then 1 else 0)

/-- Pronoun total as claim C4 words it: the sum over the five pronouns. -/
def specPronounCount (text : String) : Nat :=
  specOcc text "i" + specOcc text "me" + specOcc text "my" +
  specOcc text "mine" + specOcc text "myself"

/-- Negative-word total as claim C5 words it: the sum of raw substring
occurrence counts of the 18 lexicon words in the lowercased text. -/
def specNegativeCount (text : String) : Nat :=
  pyCount (pyLower text) "sad" + pyCount (pyLower text) "depressed" +
  pyCount (pyLower text) "hopeless" + pyCount (pyLower text) "worthless" +
  pyCount (pyLower text) "tired" + pyCount (pyLower text) "exhausted" +
  pyCount (pyLower text) "alone" + pyCount (pyLower text) "lonely" +
  pyCount (pyLower text) "empty" + pyCount (pyLower text) "numb" +
  pyCount (pyLower text) "helpless" + pyCount (pyLower text) "useless" +
  pyCount (pyLower text) "horrible" + pyCount (pyLower text) "terrible" +
  pyCount (pyLower text) "awful" + pyCount (pyLower text) "miserable" +
  pyCount (pyLower text) "hate" + pyCount (pyLower text) "hurt"

/-! ### models/model_loader.py and api/routes.py -/

/-- The primary-label and confidence part of the `predict_emotion` result
(the DistilBERT classifier is an external collaborator). -/
structure EmotionPrediction where
  primary : String
  confidence : ℚ
  deriving DecidableEq

/-- The record returned by `TextAnalysisModel.analyze` (model_loader.py). -/
structure AnalysisData where
  emotion : EmotionPrediction
  sentiment : SentimentResult
  linguistic_features : LinguisticFeatures
  wellness_score : ℚ
  interpretation : String
  input_length : Nat
  deriving DecidableEq

/-- `TextAnalysisModel.analyze` (model_loader.py): the sequential pipeline.
The classifier and the VADER analyzer are taken as function parameters. -/
def TextAnalysisModel.analyze (classify : String → EmotionPrediction)
    (vader : String → SentimentResult) (text : String) : AnalysisData :=
  let emotion := classify text
  let sentiment := vader text
  let features := extract_linguistic_features text
  let wellness_score := calculate_wellness_score emotion.primary sentiment features
  let interpretation := get_interpretation wellness_score emotion.primary
  { emotion := emotion
    sentiment := sentiment
    linguistic_features := features
    wellness_score := wellness_score
    interpretation := interpretation
    input_length := text.length }

/-- The analyze-text handler (routes.py), together with the pydantic
`TextInput` validation (min_length 1, max_length 5000, a 422 client error)
that runs before the handler body.  The handler strips the text, rejects
empty-after-strip text with a 400 client error, and otherwise runs the
pipeline on the stripped text. -/
def analyze_text (classify : String → EmotionPrediction)
    (vader : String → SentimentResult) (input_text : String) :
    Except (Nat × String) AnalysisData :=
  if input_text.length < 1 ∨ input_text.length > 5000 then
    Except.error (422, "text field validation failed")
  else
    let text := pyStrip input_text
    if text = "" then Except.error (400, "Text cannot be empty")
    else Except.ok (TextAnalysisModel.analyze classify vader text)

/-- The loop body of the batch-analyze handler (routes.py): analyze each
entry that is non-empty after stripping, in order; a raised error aborts the
whole loop. -/
def batch_loop {α : Type} (analyze : String → Except String α) :
    List String → Except String (List α)
  | [] => Except.ok []
  | t :: rest =>
    if pyStrip t ≠ "" then
      match analyze t with
      | Except.error e => Except.error e
      | Except.ok r =>
        match batch_loop analyze rest with
        | Except.error e => Except.error e
        | Except.ok rs => Except.ok (r :: rs)
    else batch_loop analyze rest

/-- The batch-analyze handler (routes.py): reject batches of more than 50
texts with a 400 client error; otherwise run the loop, turning any raised
analysis error into a 500 server error, and return the pair of the result
count and the results. -/
def batch_analyze {α : Type} (analyze : String → Except String α)
    (texts : List String) : Except (Nat × String) (Nat × List α) :=
  if texts.length > 50 then Except.error (400, "Maximum 50 texts per batch")
  else
    match batch_loop analyze texts with
    | Except.error e => Except.error (500, e)
    | Except.ok results => Except.ok (results.length, results)

/-- A concrete classifier stub used for closed witness statements. -/
def constClassify : String → EmotionPrediction := fun _ => ⟨"neutral", 1⟩

/-- A concrete sentiment stub used for closed witness statements. -/
def constVader : String → SentimentResult := fun _ => ⟨0, 0, 0, 1⟩

/-- Extracts the `input_length` field of a successful analysis response. -/
def resultInputLength (r : Except (Nat × String) AnalysisData) : Option Nat :=
  match r with
  | Except.ok d => some d.input_length
  | Except.error _ => none

/-- Does the response carry a 400/422 client error? -/
def isClientError {α : Type} : Except (Nat × String) α → Bool
  | Except.error e => decide (e.1 = 400 ∨ e.1 = 422)
  | Except.ok _ => false

/-- Does the response carry a 500 server error? -/
def isServerError {α : Type} : Except (Nat × String) α → Bool
  | Except.error e => decide (e.1 = 500)
  | Except.ok _ => false

/-- A concrete analyzer stub failing on one text, for the C9 witness. -/
def failingAnalyze : String → Except String Nat :=
  fun t => if t = "bad" then Except.error "boom" else Except.ok 0

/-! ### Rounding lemmas -/

theorem le_roundHalfEven {a : ℤ} {x : ℚ} (h : (a : ℚ) ≤ x) : a ≤ roundHalfEven x := by
  have hf : a ≤ ⌊x⌋ := Int.le_floor.mpr h
  unfold roundHalfEven
  split_ifs <;> omega

theorem roundHalfEven_le {b : ℤ} {x : ℚ} (h : x ≤ (b : ℚ)) : roundHalfEven x ≤ b := by
  have hfb : ⌊x⌋ ≤ b := by
    have := Int.floor_le_floor h
    rwa [Int.floor_intCast] at this
  have hfx : (⌊x⌋ : ℚ) ≤ x := Int.floor_le x
  unfold roundHalfEven
  split_ifs with h1 h2 h3
  · exact hfb
  · have hlt : (⌊x⌋ : ℚ) < (b : ℚ) := by linarith
    have : ⌊x⌋ < b := by exact_mod_cast hlt
    omega
  · exact hfb
  · have heq : x - ⌊x⌋ = 1 / 2 := le_antisymm (not_lt.mp h2) (not_lt.mp h1)
    have hlt : (⌊x⌋ : ℚ) < (b : ℚ) := by linarith
    have : ⌊x⌋ < b := by exact_mod_cast hlt
    omega

theorem round_py_mem {lo hi : ℤ} {x : ℚ} (d : Nat) (h1 : (lo : ℚ) ≤ x) (h2 : x ≤ (hi : ℚ)) :
    (lo : ℚ) ≤ round_py x d ∧ round_py x d ≤ (hi : ℚ) := by
  have hpow : (0 : ℚ) < 10 ^ d := by positivity
  have ha : ((lo * 10 ^ d : ℤ) : ℚ) ≤ x * 10 ^ d := by
    push_cast
    exact mul_le_mul_of_nonneg_right h1 hpow.le
  have hb : x * 10 ^ d ≤ ((hi * 10 ^ d : ℤ) : ℚ) := by
    push_cast
    exact mul_le_mul_of_nonneg_right h2 hpow.le
  have h3 := le_roundHalfEven ha
  have h4 := roundHalfEven_le hb
  have h3' : (lo : ℚ) * 10 ^ d ≤ (roundHalfEven (x * 10 ^ d) : ℚ) := by exact_mod_cast h3
  have h4' : (roundHalfEven (x * 10 ^ d) : ℚ) ≤ (hi : ℚ) * 10 ^ d := by exact_mod_cast h4
  unfold round_py
  constructor
  · rw [le_div_iff₀ hpow]
    exact h3'
  · rw [div_le_iff₀ hpow]
    exact h4'

/-! ### Claim C1: the wellness-score formula -/

theorem lookup_emotion_scores (e : String) :
    ((emotion_scores.lookup e).getD 5) = specBaseScore e := by
  unfold emotion_scores specBaseScore
  by_cases h1 : e = "joy"
  · subst h1; with_unfolding_all decide
  by_cases h2 : e = "neutral"
  · subst h2; with_unfolding_all decide
  by_cases h3 : e = "sadness"
  · subst h3; with_unfolding_all decide
  by_cases h4 : e = "anxiety"
  · subst h4; with_unfolding_all decide
  by_cases h5 : e = "anger"
  · subst h5; with_unfolding_all decide
  have e1 : (e == "joy") = false := beq_eq_false_iff_ne.mpr h1
  have e2 : (e == "neutral") = false := beq_eq_false_iff_ne.mpr h2
  have e3 : (e == "sadness") = false := beq_eq_false_iff_ne.mpr h3
  have e4 : (e == "anxiety") = false := beq_eq_false_iff_ne.mpr h4
  have e5 : (e == "anger") = false := beq_eq_false_iff_ne.mpr h5
  simp [List.lookup, e1, e2, e3, e4, e5, h1, h2, h3, h4, h5]
  norm_num

theorem calculate_wellness_score_eq (e : String) (s : SentimentResult)
    (f : LinguisticFeatures) :
    calculate_wellness_score e s f = specWellnessScore e s.compound f.negative_words := by
  unfold calculate_wellness_score specWellnessScore
  rw [lookup_emotion_scores]
  norm_num

/-- C1: `calculate_wellness_score` returns
`round(clamp(base + compound * 2 - min(negative_words * 0.5, 2.0), 0, 10), 1)`
with the base table joy=8.0, neutral=5.0, sadness=3.0, anxiety=3.5, anger=2.5
and default 5.0 (adjust then clamp); the result always lies in [0,10] and
carries exactly one decimal place, and label "anger" with compound 0.0 and
zero negative words yields exactly 2.5. -/
theorem C1_wellness_score_formula (e : String) (s : SentimentResult) (f : LinguisticFeatures) :
    calculate_wellness_score e s f = specWellnessScore e s.compound f.negative_words ∧
    0 ≤ calculate_wellness_score e s f ∧
    calculate_wellness_score e s f ≤ 10 ∧
    (∃ k : ℤ, calculate_wellness_score e s f = (k : ℚ) / 10) ∧
    (∀ (s' : SentimentResult) (f' : LinguisticFeatures), s'.compound = 0 →
      f'.negative_words = 0 → calculate_wellness_score "anger" s' f' = 2.5) := by
  have heq := calculate_wellness_score_eq e s f
  have hb : ((0 : ℤ) : ℚ) ≤
      max 0 (min 10 (specBaseScore e + s.compound * 2 - min ((f.negative_words : ℚ) * 0.5) 2.0)) := by
    push_cast
    exact le_max_left _ _
  have ht : max 0 (min 10 (specBaseScore e + s.compound * 2 -
      min ((f.negative_words : ℚ) * 0.5) 2.0)) ≤ ((10 : ℤ) : ℚ) := by
    push_cast
    exact max_le (by norm_num) (min_le_left _ _)
  have hmem := round_py_mem 1 hb ht
  refine ⟨heq, ?_, ?_, ?_, ?_⟩
  · rw [heq]
    unfold specWellnessScore
    have := hmem.1
    push_cast at this
    exact this
  · rw [heq]
    unfold specWellnessScore
    have := hmem.2
    push_cast at this
    exact this
  · refine ⟨roundHalfEven ((max 0 (min 10
      (specBaseScore e + s.compound * 2 - min ((f.negative_words : ℚ) * 0.5) 2.0))) * 10 ^ 1), ?_⟩
    rw [heq]
    unfold specWellnessScore round_py
    norm_num
  · intro s' f' hc hn
    rw [calculate_wellness_score_eq]
    unfold specWellnessScore
    rw [hc, hn]
    have hbase : specBaseScore "anger" = 2.5 := by with_unfolding_all decide
    rw [hbase]
    have hclamp : max 0 (min 10 ((2.5 : ℚ) + 0 * 2 - min (((0 : Nat) : ℚ) * 0.5) 2.0)) = 2.5 := by
      norm_num
    rw [hclamp]
    with_unfolding_all decide

theorem C1_wellness_score_formula_witness :
    calculate_wellness_score "anger" ⟨0, 0, 0, 1⟩ ⟨0, 0, 0, 0, 0, 0⟩ = 2.5 :=
  (C1_wellness_score_formula "anger" ⟨0, 0, 0, 1⟩ ⟨0, 0, 0, 0, 0, 0⟩).2.2.2.2
    ⟨0, 0, 0, 1⟩ ⟨0, 0, 0, 0, 0, 0⟩ rfl rfl

/-! ### Claim C2: interpretation threshold bands -/

/-- C2: `get_interpretation` selects the band by testing thresholds top-down
with first match winning; the boundaries 7.5, 5.0, 3.0 each select the higher
band because the comparisons are greater-or-equal, not strictly greater. -/
theorem C2_interpretation_bands (score : ℚ) (emotion : String) :
    (7.5 ≤ score → get_interpretation score emotion = positive_sentence emotion) ∧
    (5.0 ≤ score → score < 7.5 → get_interpretation score emotion = balanced_sentence emotion) ∧
    (3.0 ≤ score → score < 5.0 → get_interpretation score emotion = concern_sentence emotion) ∧
    (score < 3.0 → get_interpretation score emotion = support_sentence emotion) := by
  unfold get_interpretation positive_sentence balanced_sentence concern_sentence support_sentence
  refine ⟨fun h => ?_, fun h h' => ?_, fun h h' => ?_, fun h => ?_⟩ <;>
    split_ifs <;> first | rfl | linarith

theorem C2_interpretation_bands_witness :
    get_interpretation 7.5 "joy" = positive_sentence "joy" ∧
    get_interpretation 5.0 "joy" = balanced_sentence "joy" ∧
    get_interpretation 3.0 "joy" = concern_sentence "joy" ∧
    get_interpretation 2.9 "joy" = support_sentence "joy" :=
  ⟨(C2_interpretation_bands 7.5 "joy").1 (le_refl _),
   (C2_interpretation_bands 5.0 "joy").2.1 (le_refl _) (by norm_num),
   (C2_interpretation_bands 3.0 "joy").2.2.1 (le_refl _) (by norm_num),
   (C2_interpretation_bands 2.9 "joy").2.2.2 (by norm_num)⟩

/-! ### Claim C3: input_length (corrected — the code stores the trimmed length) -/

/-- C3 counterexample: the request text `" hi "` has 4 characters, but the
returned `input_length` is 2, the length of the stripped text that the
handler passes into the pipeline — not the length of the text as received. -/
theorem C3_counterexample :
    (" hi " : String).length = 4 ∧
    resultInputLength (analyze_text constClassify constVader " hi ") = some 2 :=
  ⟨rfl, by decide⟩

/-- C3 (amended): for every accepted request, `input_length` equals the
character count of the whitespace-stripped text that the handler passes into
the pipeline. -/
theorem C3_input_length_trimmed (classify : String → EmotionPrediction)
    (vader : String → SentimentResult) (text : String) (d : AnalysisData)
    (h : analyze_text classify vader text = Except.ok d) :
    d.input_length = (pyStrip text).length := by
  unfold analyze_text at h
  by_cases hv : text.length < 1 ∨ text.length > 5000
  · rw [if_pos hv] at h
    exact absurd h (by simp)
  · rw [if_neg hv] at h
    by_cases hs : pyStrip text = ""
    · simp only [hs, if_pos] at h
      exact absurd h (by simp)
    · simp only [if_neg hs] at h
      have hd := Except.ok.inj h
      rw [← hd]
      rfl

theorem C3_input_length_trimmed_witness :
    (TextAnalysisModel.analyze constClassify constVader (pyStrip " hi ")).input_length =
      (pyStrip " hi ").length :=
  C3_input_length_trimmed constClassify constVader " hi " _ rfl

/-! ### Claim C4: first-person pronoun counting -/

/-- C4: `first_person_pronouns` equals the sum over {i, me, my, mine, myself}
of the `" p "`, `" p,"`, `" p."` substring counts of the lowercased text plus
1 for each pronoun that starts the text; a pronoun at the very end of the
text, or followed by other punctuation such as "!", is not counted. -/
theorem C4_first_person_pronouns (text : String) :
    (extract_linguistic_features text).first_person_pronouns = specPronounCount text ∧
    (extract_linguistic_features "they saw me!").first_person_pronouns = 0 ∧
    (extract_linguistic_features "nobody helps me").first_person_pronouns = 0 ∧
    (extract_linguistic_features "i am fine").first_person_pronouns = 1 := by
  refine ⟨?_, by decide, by decide, by decide⟩
  have h : (extract_linguistic_features text).first_person_pronouns =
      (first_person_pronoun_list.map (pronounOcc (pyLower text))).sum := rfl
  rw [h]
  simp [first_person_pronoun_list, specPronounCount, specOcc, pronounOcc]
  omega

/-! ### Claim C5: negative-word counting -/

/-- C5: `negative_words` is the sum of raw (not word-boundary-safe) substring
counts over the fixed 18-word lexicon, so a lexicon word inside a longer word
still counts; "I feel so hopeless and worthless today" yields at least 2. -/
theorem C5_negative_words (text : String) :
    (extract_linguistic_features text).negative_words = specNegativeCount text ∧
    2 ≤ (extract_linguistic_features "I feel so hopeless and worthless today").negative_words ∧
    (extract_linguistic_features "she is saddened").negative_words = 1 := by
  refine ⟨?_, by decide, by decide⟩
  have h : (extract_linguistic_features text).negative_words =
      (negative_word_list.map (fun w => pyCount (pyLower text) w)).sum := rfl
  rw [h]
  simp [negative_word_list, specNegativeCount]
  omega

/-! ### Claim C6: lexical diversity -/

/-- C6: `lexical_diversity` is the distinct-token count divided by the total
token count, rounded to 3 decimals, 0 when there are no tokens; it lies in
[0,1] and equals 1.0 when the tokens are nonempty and all distinct. -/
theorem C6_lexical_diversity (text : String) :
    (findallWords (pyLower text) = [] →
      (extract_linguistic_features text).lexical_diversity = 0) ∧
    (findallWords (pyLower text) ≠ [] →
      (extract_linguistic_features text).lexical_diversity =
        round_py (((findallWords (pyLower text)).dedup.length : ℚ) /
          ((findallWords (pyLower text)).length : ℚ)) 3) ∧
    0 ≤ (extract_linguistic_features text).lexical_diversity ∧
    (extract_linguistic_features text).lexical_diversity ≤ 1 ∧
    (findallWords (pyLower text) ≠ [] → (findallWords (pyLower text)).Nodup →
      (extract_linguistic_features text).lexical_diversity = 1) := by
  have h : (extract_linguistic_features text).lexical_diversity =
      round_py (if (findallWords (pyLower text)).length > 0 then
        ((findallWords (pyLower text)).dedup.length : ℚ) /
          ((findallWords (pyLower text)).length : ℚ) else 0) 3 := rfl
  set ws := findallWords (pyLower text) with hws
  have hdedup : ws.dedup.length ≤ ws.length := (List.dedup_sublist ws).length_le
  have hr0 : round_py 0 3 = 0 := by with_unfolding_all decide
  have hr1 : round_py 1 3 = 1 := by with_unfolding_all decide
  have hq0 : ((0 : ℤ) : ℚ) ≤ (if ws.length > 0 then
      (ws.dedup.length : ℚ) / (ws.length : ℚ) else 0) := by
    push_cast
    split_ifs with hl
    · positivity
    · exact le_refl 0
  have hq1 : (if ws.length > 0 then
      (ws.dedup.length : ℚ) / (ws.length : ℚ) else 0) ≤ ((1 : ℤ) : ℚ) := by
    push_cast
    split_ifs with hl
    · rw [div_le_one (by exact_mod_cast hl)]
      exact_mod_cast hdedup
    · norm_num
  have hmem := round_py_mem 3 hq0 hq1
  refine ⟨?_, ?_, ?_, ?_, ?_⟩
  · intro he
    rw [h, he]
    simpa using hr0
  · intro hne
    have hl : ws.length > 0 := List.length_pos.mpr hne
    rw [h, if_pos hl]
  · rw [h]
    have := hmem.1
    push_cast at this
    exact this
  · rw [h]
    have := hmem.2
    push_cast at this
    exact this
  · intro hne hnodup
    have hl : ws.length > 0 := List.length_pos.mpr hne
    have hdd : ws.dedup = ws := List.dedup_eq_self.mpr hnodup
    rw [h, if_pos hl, hdd, div_self (by exact_mod_cast hl.ne' : (ws.length : ℚ) ≠ 0), hr1]

theorem C6_lexical_diversity_witness :
    (extract_linguistic_features "ab cd").lexical_diversity = 1 ∧
    (extract_linguistic_features "!!!").lexical_diversity = 0 :=
  ⟨(C6_lexical_diversity "ab cd").2.2.2.2 (by decide) (by decide),
   (C6_lexical_diversity "!!!").1 (by decide)⟩

/-! ### Claim C7: batch-analyze on well-behaved batches -/

theorem batch_loop_ok {α : Type} (f : String → α) (texts : List String) :
    batch_loop (fun t => Except.ok (f t)) texts =
      Except.ok ((texts.filter (fun t => pyStrip t ≠ "")).map f) := by
  induction texts with
  | nil => rfl
  | cons t rest ih =>
    by_cases hc : pyStrip t ≠ ""
    · simp [batch_loop, hc, ih, List.filter_cons]
    · simp [batch_loop, hc, ih, List.filter_cons]

/-- C7: batches of more than 50 texts are rejected with a client error no
matter what the analyzer would do; otherwise exactly the entries that are
non-empty after stripping are analyzed, in order, empty entries being
silently skipped, and the count equals the number of returned results; the
example batch of the spec yields 2 results with count 2. -/
theorem C7_batch_analyze {α : Type} (f : String → α) (g : String → Except String α)
    (texts : List String) :
    (texts.length > 50 →
      batch_analyze g texts = Except.error (400, "Maximum 50 texts per batch")) ∧
    (texts.length ≤ 50 →
      batch_analyze (fun t => Except.ok (f t)) texts =
        Except.ok (((texts.filter (fun t => pyStrip t ≠ "")).map f).length,
          (texts.filter (fun t => pyStrip t ≠ "")).map f)) ∧
    batch_analyze (fun t => Except.ok (f t)) ["I\x27m happy!", "", "I\x27m sad."] =
      Except.ok (2, [f "I\x27m happy!", f "I\x27m sad."]) := by
  refine ⟨fun h => ?_, fun h => ?_, ?_⟩
  · simp [batch_analyze, h]
  · have hn : ¬ texts.length > 50 := by omega
    simp [batch_analyze, hn, batch_loop_ok f texts]
  · rfl

theorem C7_batch_analyze_witness :
    batch_analyze (fun t => Except.ok (id t)) (List.replicate 51 "x") =
      Except.error (400, "Maximum 50 texts per batch") ∧
    batch_analyze (fun t => Except.ok (id t)) ["I\x27m happy!", "", "I\x27m sad."] =
      Except.ok (2, [id "I\x27m happy!", id "I\x27m sad."]) :=
  ⟨(C7_batch_analyze id (fun t => Except.ok (id t)) (List.replicate 51 "x")).1 (by decide),
   (C7_batch_analyze id (fun t => Except.ok (id t)) ["I\x27m happy!", "", "I\x27m sad."]).2.2⟩

/-! ### Claim C8: empty-after-trim text is rejected before the pipeline -/

/-- C8: a text that is empty after stripping is rejected with a client-side
validation error (422 from the pydantic length check for the empty string,
400 from the handler emptiness check otherwise), and the response does not
depend on the classifier or sentiment analyzer — the pipeline is never
invoked. -/
theorem C8_empty_text_rejected (classify : String → EmotionPrediction)
    (vader : String → SentimentResult) (text : String) (h : pyStrip text = "") :
    isClientError (analyze_text classify vader text) = true ∧
    ∀ (classify' : String → EmotionPrediction) (vader' : String → SentimentResult),
      analyze_text classify vader text = analyze_text classify' vader' text := by
  constructor
  · unfold analyze_text
    by_cases hv : text.length < 1 ∨ text.length > 5000
    · rw [if_pos hv]
      rfl
    · rw [if_neg hv]
      simp only [h]
      rfl
  · intro classify' vader'
    unfold analyze_text
    by_cases hv : text.length < 1 ∨ text.length > 5000
    · rw [if_pos hv, if_pos hv]
    · rw [if_neg hv, if_neg hv]
      simp [h]

theorem C8_empty_text_rejected_witness :
    isClientError (analyze_text constClassify constVader "   ") = true :=
  (C8_empty_text_rejected constClassify constVader "   " (by decide)).1

/-! ### Claim C9: one failing text aborts the whole batch -/

theorem batch_loop_error {α : Type} (analyze : String → Except String α)
    (texts : List String) (t : String) (hmem : t ∈ texts) (hne : pyStrip t ≠ "")
    (herr : ∃ e, analyze t = Except.error e) :
    ∃ e', batch_loop analyze texts = Except.error e' := by
  induction texts with
  | nil => cases hmem
  | cons hd rest ih =>
    rcases List.mem_cons.mp hmem with hhd | hrest
    · subst hhd
      obtain ⟨e, he⟩ := herr
      refine ⟨e, ?_⟩
      simp [batch_loop, hne, he]
    · by_cases hc : pyStrip hd ≠ ""
      · cases hhd : analyze hd with
        | error e => exact ⟨e, by simp [batch_loop, hc, hhd]⟩
        | ok r =>
          obtain ⟨e', he'⟩ := ih hrest
          exact ⟨e', by simp [batch_loop, hc, hhd, he']⟩
      · obtain ⟨e', he'⟩ := ih hrest
        exact ⟨e', by simp [batch_loop, hc, he']⟩

/-- C9: if the analysis of any single non-skipped text inside an accepted
batch raises an error, the whole batch call fails with a 500 server error —
no results are returned for texts analyzed earlier in the batch. -/
theorem C9_batch_failure_aborts {α : Type} (analyze : String → Except String α)
    (texts : List String) (t : String) (e : String) (hmem : t ∈ texts)
    (hne : pyStrip t ≠ "") (herr : analyze t = Except.error e)
    (hlen : texts.length ≤ 50) :
    isServerError (batch_analyze analyze texts) = true := by
  obtain ⟨e', he'⟩ := batch_loop_error analyze texts t hmem hne ⟨e, herr⟩
  have hn : ¬ texts.length > 50 := by omega
  simp [batch_analyze, hn, he', isServerError]

theorem C9_batch_failure_aborts_witness :
    isServerError (batch_analyze failingAnalyze ["good", "bad"]) = true :=
  C9_batch_failure_aborts failingAnalyze ["good", "bad"] "bad" "boom"
    (by decide) (by decide) rfl (by decide)

/-! ### Claim C10: leading/trailing whitespace does not change the analysis -/

theorem dropWhile_eq_nil_of_forall {p : Char → Bool} :
    ∀ {l : List Char}, (∀ c ∈ l, p c = true) → l.dropWhile p = []
  | [], _ => rfl
  | c :: cs, h => by
    rw [List.dropWhile_cons, if_pos (h c (by simp))]
    exact dropWhile_eq_nil_of_forall (fun x hx => h x (by simp [hx]))

theorem dropWhile_append_of_forall {p : Char → Bool} (pre l : List Char)
    (h : ∀ c ∈ pre, p c = true) : (pre ++ l).dropWhile p = l.dropWhile p := by
  induction pre with
  | nil => rfl
  | cons c cs ih =>
    rw [List.cons_append, List.dropWhile_cons, if_pos (h c (by simp))]
    exact ih (fun x hx => h x (by simp [hx]))

theorem stripCh_append_left (pre l : List Char) (h : ∀ c ∈ pre, isPySpace c = true) :
    stripCh (pre ++ l) = stripCh l := by
  unfold stripCh
  rw [dropWhile_append_of_forall pre l h]

theorem stripCh_append_right (l suf : List Char) (h : ∀ c ∈ suf, isPySpace c = true) :
    stripCh (l ++ suf) = stripCh l := by
  unfold stripCh
  rw [List.dropWhile_append]
  by_cases hl : (l.dropWhile isPySpace).isEmpty = true
  · rw [if_pos hl, dropWhile_eq_nil_of_forall h]
    have hnil : l.dropWhile isPySpace = [] := by simpa [List.isEmpty_iff] using hl
    rw [hnil]
  · rw [if_neg hl, List.reverse_append,
      dropWhile_append_of_forall suf.reverse _ (fun c hc => h c (by simpa using hc))]

theorem stripCh_pad (s pre suf : List Char) (hp : ∀ c ∈ pre, isPySpace c = true)
    (hs : ∀ c ∈ suf, isPySpace c = true) : stripCh (pre ++ s ++ suf) = stripCh s := by
  rw [stripCh_append_right (pre ++ s) suf hs, stripCh_append_left pre s hp]

/-- C10: two accepted requests whose texts differ only in leading or trailing
whitespace produce identical responses — the handler strips the text before
the pipeline runs, so the emotion input, sentiment, linguistic features,
wellness score, interpretation and `input_length` all coincide. -/
theorem C10_whitespace_insensitive (classify : String → EmotionPrediction)
    (vader : String → SentimentResult) (s pre1 suf1 pre2 suf2 : List Char)
    (hp1 : ∀ c ∈ pre1, isPySpace c = true) (hs1 : ∀ c ∈ suf1, isPySpace c = true)
    (hp2 : ∀ c ∈ pre2, isPySpace c = true) (hs2 : ∀ c ∈ suf2, isPySpace c = true)
    (hlen1 : 1 ≤ (String.mk (pre1 ++ s ++ suf1)).length)
    (hlen1' : (String.mk (pre1 ++ s ++ suf1)).length ≤ 5000)
    (hlen2 : 1 ≤ (String.mk (pre2 ++ s ++ suf2)).length)
    (hlen2' : (String.mk (pre2 ++ s ++ suf2)).length ≤ 5000)
    (_hne : stripCh s ≠ []) :
    analyze_text classify vader (String.mk (pre1 ++ s ++ suf1)) =
      analyze_text classify vader (String.mk (pre2 ++ s ++ suf2)) := by
  have hv1 : ¬((String.mk (pre1 ++ s ++ suf1)).length < 1 ∨
      (String.mk (pre1 ++ s ++ suf1)).length > 5000) := by omega
  have hv2 : ¬((String.mk (pre2 ++ s ++ suf2)).length < 1 ∨
      (String.mk (pre2 ++ s ++ suf2)).length > 5000) := by omega
  have k1 : pyStrip (String.mk (pre1 ++ s ++ suf1)) = (⟨stripCh s⟩ : String) :=
    congrArg String.mk (stripCh_pad s pre1 suf1 hp1 hs1)
  have k2 : pyStrip (String.mk (pre2 ++ s ++ suf2)) = (⟨stripCh s⟩ : String) :=
    congrArg String.mk (stripCh_pad s pre2 suf2 hp2 hs2)
  unfold analyze_text
  rw [if_neg hv1, if_neg hv2]
  simp only [k1, k2]

theorem C10_whitespace_insensitive_witness :
    analyze_text constClassify constVader (String.mk ([' '] ++ "hi".data ++ [])) =
      analyze_text constClassify constVader (String.mk ([] ++ "hi".data ++ [' '])) :=
  C10_whitespace_insensitive constClassify constVader "hi".data [' '] [] [] [' ']
    (by decide) (by decide) (by decide) (by decide)
    (by decide) (by decide) (by decide) (by decide) (by decide)

end MindCare
